import Mathlib

/-!
# Coffeelist auth service — formal model

A shallow embedding of the passkey (WebAuthn) authentication service in
`services/auth/src/server.js`, together with the data model from the SQL
migrations, and proofs of the specified properties of the ceremony
handlers (`/register/start`, `/register/verify`, `/login/start`,
`/login/verify`).

Byte buffers are `List Nat` with elements `< 256`; text columns and
base64url strings are `List Char`; challenges (already base64url text when
the handlers see them) are `String`.  The external `@simplewebauthn/server`
library is not part of the repository; its verification functions are
modelled from the specification's description of their contract.
-/

namespace Coffeelist

/-! ## Base64url helpers (`server.js` lines 67–81) -/

/-- One character of the standard base64 alphabet, for a sextet `n < 64`. -/
def sextetToChar (n : Nat) : Char :=
  if n < 26 then Char.ofNat (65 + n)
  else if n < 52 then Char.ofNat (97 + (n - 26))
  else if n < 62 then Char.ofNat (48 + (n - 52))
  else if n = 62 then '+'
  else '/'

/-- Inverse of `sextetToChar` on the base64 alphabet (the value a base64
decoder assigns to an alphabet character). -/
def charToSextet (c : Char) : Nat :=
  if 'A' ≤ c ∧ c ≤ 'Z' then c.toNat - 65
  else if 'a' ≤ c ∧ c ≤ 'z' then c.toNat - 97 + 26
  else if '0' ≤ c ∧ c ≤ '9' then c.toNat - 48 + 52
  else if c = '+' then 62
  else 63

/-- Split a byte list into base64 sextets (the bit-regrouping performed by
`Buffer.prototype.toString('base64')`, before alphabet lookup). -/
def bytesToSextets : List Nat → List Nat
  | [] => []
  | [a] => [a / 4, a % 4 * 16]
  | [a, b] => [a / 4, a % 4 * 16 + b / 16, b % 16 * 4]
  | a :: b :: c :: rest =>
      a / 4 :: (a % 4 * 16 + b / 16) :: (b % 16 * 4 + c / 64) :: c % 64 ::
        bytesToSextets rest

/-- Reassemble bytes from base64 sextets (the bit-regrouping performed by
`Buffer.from(s, 'base64')` after alphabet lookup; a trailing group of two
or three sextets yields one or two bytes, a lone sextet is dropped). -/
def sextetsToBytes : List Nat → List Nat
  | s1 :: s2 :: s3 :: s4 :: rest =>
      (s1 * 4 + s2 / 16) :: (s2 % 16 * 16 + s3 / 4) :: (s3 % 4 * 64 + s4) ::
        sextetsToBytes rest
  | [s1, s2] => [s1 * 4 + s2 / 16]
  | [s1, s2, s3] => [s1 * 4 + s2 / 16, s2 % 16 * 16 + s3 / 4]
  | _ => []

/-- `Buffer.prototype.toString('base64')`: alphabet characters followed by
`'='` padding up to a multiple of four characters. -/
def bufferToBase64 (b : List Nat) : List Char :=
  (bytesToSextets b).map sextetToChar ++ List.replicate ((3 - b.length % 3) % 3) '='

/-- `Buffer.from(s, 'base64')`: drop padding, look the characters up in the
alphabet, regroup the sextets into bytes. -/
def base64Decode (s : List Char) : List Nat :=
  sextetsToBytes ((s.filter (fun c => c ≠ '=')).map charToSextet)

/-- The character substitution of `bufferToBase64url`'s first two regex
replaces: `+ → -` and `/ → _`. -/
def urlEncodeChar (c : Char) : Char :=
  if c = '+' then '-' else if c = '/' then '_' else c

/-- The character substitution of `base64urlToBuffer`'s two regex replaces:
`- → +` and `_ → /`. -/
def urlDecodeChar (c : Char) : Char :=
  if c = '-' then '+' else if c = '_' then '/' else c

/-- `bufferToBase64url` (`server.js` 75–81): base64-encode, apply the url
substitutions, strip the `'='` padding. -/
def bufferToBase64url (b : List Nat) : List Char :=
  ((bufferToBase64 b).map urlEncodeChar).filter (fun c => c ≠ '=')

/-- `base64urlToBuffer` (`server.js` 68–72): undo the url substitutions,
re-pad with `'='` to a multiple of four, base64-decode. -/
def base64urlToBuffer (s : List Char) : List Nat :=
  let base64 := s.map urlDecodeChar
  let padLen := (4 - base64.length % 4) % 4
  base64Decode (base64 ++ List.replicate padLen '=')

/-! ### Round-trip lemmas -/

theorem charToSextet_sextetToChar : ∀ n < 64, charToSextet (sextetToChar n) = n := by
  decide

theorem sextetToChar_ne_pad : ∀ n < 64, sextetToChar n ≠ '=' := by
  decide

theorem urlEncode_sextetToChar_ne_pad : ∀ n < 64, urlEncodeChar (sextetToChar n) ≠ '=' := by
  decide

theorem urlDecode_urlEncode_sextetToChar :
    ∀ n < 64, urlDecodeChar (urlEncodeChar (sextetToChar n)) = sextetToChar n := by
  decide

theorem mem_bytesToSextets_lt (b : List Nat) (hb : ∀ x ∈ b, x < 256) :
    ∀ s ∈ bytesToSextets b, s < 64 := by
  induction b using bytesToSextets.induct with
  | case1 => intro s hs; simp [bytesToSextets] at hs
  | case2 a =>
      intro s hs
      have ha := hb a (by simp)
      simp only [bytesToSextets, List.mem_cons, List.not_mem_nil, or_false] at hs
      rcases hs with h | h <;> omega
  | case3 a c =>
      intro s hs
      have ha := hb a (by simp)
      have hc := hb c (by simp)
      simp only [bytesToSextets, List.mem_cons, List.not_mem_nil, or_false] at hs
      rcases hs with h | h | h <;> omega
  | case4 a c d rest ih =>
      intro s hs
      have ha := hb a (by simp)
      have hc := hb c (by simp)
      have hd := hb d (by simp)
      simp only [bytesToSextets, List.mem_cons] at hs
      rcases hs with h | h | h | h | h
      · omega
      · omega
      · omega
      · omega
      · exact ih (fun x hx => hb x (by simp [hx])) s h

theorem sextetsToBytes_bytesToSextets (b : List Nat) (hb : ∀ x ∈ b, x < 256) :
    sextetsToBytes (bytesToSextets b) = b := by
  induction b using bytesToSextets.induct with
  | case1 => rfl
  | case2 a =>
      have ha := hb a (by simp)
      simp only [bytesToSextets, sextetsToBytes, List.cons.injEq, and_true]
      omega
  | case3 a c =>
      have ha := hb a (by simp)
      have hc := hb c (by simp)
      simp only [bytesToSextets, sextetsToBytes, List.cons.injEq, and_true]
      constructor <;> omega
  | case4 a c d rest ih =>
      have ha := hb a (by simp)
      have hc := hb c (by simp)
      have hd := hb d (by simp)
      simp only [bytesToSextets, sextetsToBytes, List.cons.injEq]
      refine ⟨by omega, by omega, by omega, ih ?_⟩
      intro x hx; exact hb x (by simp [hx])

theorem bufferToBase64url_eq_map (b : List Nat) (hb : ∀ x ∈ b, x < 256) :
    bufferToBase64url b
      = (bytesToSextets b).map (fun n => urlEncodeChar (sextetToChar n)) := by
  unfold bufferToBase64url bufferToBase64
  rw [List.map_append, List.map_map, List.filter_append]
  have h1 : (((bytesToSextets b).map (urlEncodeChar ∘ sextetToChar)).filter
      (fun c => c ≠ '=')) = (bytesToSextets b).map (urlEncodeChar ∘ sextetToChar) := by
    apply List.filter_eq_self.mpr
    intro c hc
    rw [List.mem_map] at hc
    obtain ⟨n, hn, rfl⟩ := hc
    have hne := urlEncode_sextetToChar_ne_pad n (mem_bytesToSextets_lt b hb n hn)
    simpa using hne
  have h2 : ((List.replicate ((3 - b.length % 3) % 3) '=').map urlEncodeChar).filter
      (fun c => c ≠ '=') = [] := by
    rw [List.map_replicate]
    apply List.filter_eq_nil_iff.mpr
    intro c hc
    rw [List.mem_replicate] at hc
    simp [hc.2, urlEncodeChar]
  rw [h1, h2, List.append_nil]
  rfl

/-- **C10.** For every byte buffer `b`, `base64urlToBuffer (bufferToBase64url b) = b`:
the base64url helpers of `server.js` round-trip, so a credential identifier stored
at registration is recovered bit-for-bit at authentication. -/
theorem c10_base64url_roundtrip (b : List Nat) (hb : ∀ x ∈ b, x < 256) :
    base64urlToBuffer (bufferToBase64url b) = b := by
  rw [bufferToBase64url_eq_map b hb]
  unfold base64urlToBuffer base64Decode
  rw [List.map_map]
  have hmap : (bytesToSextets b).map (urlDecodeChar ∘ fun n => urlEncodeChar (sextetToChar n))
      = (bytesToSextets b).map sextetToChar := by
    apply List.map_congr_left
    intro n hn
    exact urlDecode_urlEncode_sextetToChar n (mem_bytesToSextets_lt b hb n hn)
  rw [hmap]
  dsimp only
  rw [List.filter_append]
  have h1 : ((bytesToSextets b).map sextetToChar).filter (fun c => c ≠ '=')
      = (bytesToSextets b).map sextetToChar := by
    apply List.filter_eq_self.mpr
    intro c hc
    rw [List.mem_map] at hc
    obtain ⟨n, hn, rfl⟩ := hc
    have hne := sextetToChar_ne_pad n (mem_bytesToSextets_lt b hb n hn)
    simpa using hne
  have h2 : (List.replicate ((4 - ((bytesToSextets b).map sextetToChar).length % 4) % 4) '=').filter
      (fun c => c ≠ '=') = [] := by
    apply List.filter_eq_nil_iff.mpr
    intro c hc
    rw [List.mem_replicate] at hc
    simp [hc.2]
  rw [h1, h2, List.append_nil, List.map_map]
  have hmap2 : (bytesToSextets b).map (charToSextet ∘ sextetToChar)
      = (bytesToSextets b).map id := by
    apply List.map_congr_left
    intro n hn
    exact charToSextet_sextetToChar n (mem_bytesToSextets_lt b hb n hn)
  rw [hmap2, List.map_id]
  exact sextetsToBytes_bytesToSextets b hb

/-- Witness for C10: the round-trip evaluated on the concrete buffer
`[0, 1, 255, 77, 128]`. -/
theorem c10_base64url_roundtrip_witness :
    base64urlToBuffer (bufferToBase64url [0, 1, 255, 77, 128]) = [0, 1, 255, 77, 128] :=
  c10_base64url_roundtrip [0, 1, 255, 77, 128] (by decide)

/-! ## Data model (migrations `001_add_users.sql` and spec §3) -/

/-- A row of the `users` table: `id SERIAL PRIMARY KEY`,
`username` and `email` both `UNIQUE NOT NULL`. -/
structure User where
  id : Nat
  username : String
  email : String
deriving DecidableEq, Repr

/-- A row of the `credentials` table: owning user reference, unique
authenticator-issued identifier (stored as base64url text), public key
(base64url text), signature counter, transport hints (stored as a JSON
array of strings; modelled as the list itself). -/
structure Credential where
  user_id : Nat
  credential_id : List Char
  public_key : List Char
  counter : Nat
  transports : List String
deriving DecidableEq, Repr

/-- The relational store as seen by the auth service. -/
structure DB where
  users : List User
  credentials : List Credential
deriving DecidableEq, Repr

/-- The pending registration identity stored in the session between
`/register/start` and `/register/verify`. -/
structure RegUser where
  userId : String
  username : String
  email : String
deriving DecidableEq, Repr

/-- One browser session record (`req.session`): the Challenge Session
fields (`currentChallenge`, `registrationUser`) and the Authenticated
Session fields (`userId`, `username`). -/
structure SessionState where
  currentChallenge : Option String
  registrationUser : Option RegUser
  userId : Option Nat
  username : Option String
deriving DecidableEq, Repr

/-- WebAuthn configuration (`server.js` 63–65). -/
def rpID : String := "localhost"

/-- The expected origin (`server.js` 65). -/
def origin : String := "http://localhost:8080"

/-! ## The external `@simplewebauthn/server` library

The library itself is not part of this repository.  Its verification
functions are modelled from the specification (§4.1, §4.2): each one
performs a sequence of checks (signature validity, origin match,
relying-party match, challenge match, authenticator flags, and — for
authentication — the signature-counter comparison) and fails if any
check fails. -/

/-- The distinct reasons a WebAuthn verification can fail internally.
The handlers never observe the reason: they only see the `verified` flag. -/
inductive VerifyFailure
  | badSignature
  | wrongOrigin
  | wrongRpId
  | challengeMismatch
  | flagFailure
  | staleCounter
deriving DecidableEq, Repr

/-- An attestation response submitted to `/register/verify`, with the
quantities the library's checks depend on made explicit: the challenge,
origin and relying-party id signed into the client data, the flag and
attestation-signature check outcomes, and the new credential's data. -/
structure RegistrationResponse where
  challenge : String
  respOrigin : String
  respRpId : String
  flagsOk : Bool
  attestationValid : Bool
  credentialID : List Nat
  credentialPublicKey : List Nat
  counter : Nat
  transports : List String
deriving DecidableEq, Repr

/-- `verification.registrationInfo` on success. -/
structure RegistrationInfo where
  credentialPublicKey : List Nat
  credentialID : List Nat
  counter : Nat
deriving DecidableEq, Repr

/-- Modelled from the spec: `verifyRegistrationResponse` of the external
`@simplewebauthn/server` library (not in this repository).  Per spec §4.1
it verifies the signed response against the expected challenge, origin and
relying-party identity (signature validity, origin match, challenge match,
flags) and fails if any check fails. -/
def verifyRegistrationResponse (resp : RegistrationResponse)
    (expectedChallenge expectedOrigin expectedRPID : String) :
    Except VerifyFailure RegistrationInfo :=
  if !resp.attestationValid then .error .badSignature
  else if resp.respOrigin ≠ expectedOrigin then .error .wrongOrigin
  else if resp.respRpId ≠ expectedRPID then .error .wrongRpId
  else if resp.challenge ≠ expectedChallenge then .error .challengeMismatch
  else if !resp.flagsOk then .error .flagFailure
  else .ok ⟨resp.credentialPublicKey, resp.credentialID, resp.counter⟩

/-- An assertion response submitted to `/login/verify`: the raw credential
id, the signed challenge/origin/relying-party data, the flag check outcome,
the key the signature actually verifies under (`sigValid` false models a
malformed signature), and the counter the authenticator reports. -/
structure AuthenticationResponse where
  rawId : List Nat
  challenge : String
  respOrigin : String
  respRpId : String
  flagsOk : Bool
  sigValid : Bool
  sigKey : List Nat
  newCounter : Nat
deriving DecidableEq, Repr

/-- `verification.authenticationInfo` on success. -/
structure AuthenticationInfo where
  newCounter : Nat
deriving DecidableEq, Repr

/-- Modelled from the spec: `verifyAuthenticationResponse` of the external
`@simplewebauthn/server` library (not in this repository).  Per spec §4.2
it verifies the signed assertion against the expected
challenge/origin/relying-party and the stored public key, and rejects if
the reported counter is not strictly greater than the stored counter, in
the same evaluation that checks the signature. -/
def verifyAuthenticationResponse (resp : AuthenticationResponse)
    (expectedChallenge expectedOrigin expectedRPID : String)
    (credentialPublicKey : List Nat) (storedCounter : Nat) :
    Except VerifyFailure AuthenticationInfo :=
  if !(resp.sigValid && resp.sigKey == credentialPublicKey) then .error .badSignature
  else if resp.respOrigin ≠ expectedOrigin then .error .wrongOrigin
  else if resp.respRpId ≠ expectedRPID then .error .wrongRpId
  else if resp.challenge ≠ expectedChallenge then .error .challengeMismatch
  else if !resp.flagsOk then .error .flagFailure
  else if resp.newCounter ≤ storedCounter then .error .staleCounter
  else .ok ⟨resp.newCounter⟩

/-! ## Ceremony handlers (`server.js` 115–360)

Each handler is a function from the database, the caller's session record
and the request to the resulting database, session record and HTTP
response.  Fresh randomness (the challenge the library would generate) and
the generated temporary user id are explicit parameters. -/

/-- Registration ceremony options (`generateRegistrationOptions` output as
relayed by `/register/start`). -/
structure RegistrationOptions where
  challenge : String
  rpName : String
  optRpId : String
  userID : String
  userName : String
deriving DecidableEq, Repr

/-- One allowed credential in authentication options. -/
structure AllowCredential where
  id : List Nat
  type : String
  transports : List String
deriving DecidableEq, Repr

/-- Authentication ceremony options (`generateAuthenticationOptions`
output as relayed by `/login/start`). -/
structure AuthenticationOptions where
  challenge : String
  allowCredentials : Option (List AllowCredential)
  userVerification : String
  optRpId : String
deriving DecidableEq, Repr

/-- Response of a `start` endpoint. -/
inductive RegStartResult
  | err (status : Nat) (error : String)
  | ok (opts : RegistrationOptions)
deriving DecidableEq, Repr

/-- Response of `/login/start`. -/
inductive LoginStartResult
  | err (status : Nat) (error : String)
  | ok (opts : AuthenticationOptions)
deriving DecidableEq, Repr

/-- Response of a `verify` endpoint: an error, or
`{verified: true, user: {id, username, email}}`. -/
inductive VerifyResult
  | err (status : Nat) (error : String)
  | ok (id : Nat) (username : String) (email : String)
deriving DecidableEq, Repr

/-- Whether a verify response is the success shape. -/
def VerifyResult.isOk : VerifyResult → Bool
  | .ok _ _ _ => true
  | .err _ _ => false

/-- `POST /register/start` (`server.js` 115–161).  `username`/`email` are
`Option String` with the empty string falsy, matching
`if (!username || !email)`.  The fresh challenge and generated temporary
user id are explicit inputs; the database is only read. -/
def registerStart (db : DB) (sess : SessionState)
    (username email : Option String)
    (freshChallenge : String) (tempUserId : String) :
    SessionState × RegStartResult :=
  if username.getD "" == "" || email.getD "" == "" then
    (sess, .err 400 "Username and email are required")
  else
    let uname := username.getD ""
    let em := email.getD ""
    if db.users.any (fun u => u.username == uname || u.email == em) then
      (sess, .err 409 "Username or email already exists")
    else
      let opts : RegistrationOptions := ⟨freshChallenge, "Coffelist", rpID, tempUserId, uname⟩
      ({ sess with currentChallenge := some opts.challenge,
                   registrationUser := some ⟨tempUserId, uname, em⟩ },
       .ok opts)

/-- The next id the `users` `SERIAL` column assigns. -/
def freshUserId (db : DB) : Nat :=
  (db.users.map User.id).foldr max 0 + 1

/-- `POST /register/verify` (`server.js` 164–242).  Requires the session's
outstanding challenge and pending user; verifies the attestation; then, in
a single transaction, inserts the `users` row and the `credentials` row —
if either insert violates a unique constraint the transaction is rolled
back and a generic 500 is returned.  On success the Challenge Session
fields are cleared and the Authenticated Session fields set. -/
def registerVerify (db : DB) (sess : SessionState) (resp : RegistrationResponse) :
    DB × SessionState × VerifyResult :=
  match sess.currentChallenge, sess.registrationUser with
  | some expectedChallenge, some userData =>
      match verifyRegistrationResponse resp expectedChallenge origin rpID with
      | .error _ => (db, sess, .err 400 "Verification failed")
      | .ok info =>
          if db.users.any (fun u => u.username == userData.username
                || u.email == userData.email)
              || db.credentials.any (fun c =>
                c.credential_id == bufferToBase64url info.credentialID) then
            (db, sess, .err 500 "Failed to verify registration")
          else
            let uid := freshUserId db
            let user : User := ⟨uid, userData.username, userData.email⟩
            let cred : Credential :=
              ⟨uid, bufferToBase64url info.credentialID,
               bufferToBase64url info.credentialPublicKey, info.counter,
               resp.transports⟩
            (⟨db.users ++ [user], db.credentials ++ [cred]⟩,
             { currentChallenge := none, registrationUser := none,
               userId := some uid, username := some user.username },
             .ok uid user.username user.email)
  | _, _ => (db, sess, .err 400 "No registration in progress")

/-- The `/login/start` SQL join: credential rows whose owning user has the
given username. -/
def lookupCredentialsByUsername (db : DB) (uname : String) : List Credential :=
  db.credentials.filter (fun c =>
    db.users.any (fun u => u.id == c.user_id && u.username == uname))

/-- `POST /login/start` (`server.js` 247–289).  With a (truthy) username,
looks up that user's credentials via the join and 404s when no row
matches; otherwise builds the allow-list.  Stores the fresh challenge in
the session.  The database is only read. -/
def loginStart (db : DB) (sess : SessionState) (username : Option String)
    (freshChallenge : String) :
    SessionState × LoginStartResult :=
  if username.getD "" == "" then
    let opts : AuthenticationOptions := ⟨freshChallenge, none, "preferred", rpID⟩
    ({ sess with currentChallenge := some opts.challenge }, .ok opts)
  else
    let uname := username.getD ""
    let rows := lookupCredentialsByUsername db uname
    if rows.isEmpty then
      (sess, .err 404 "User not found")
    else
      let allow := rows.map (fun c =>
        AllowCredential.mk (base64urlToBuffer c.credential_id) "public-key" c.transports)
      let opts : AuthenticationOptions := ⟨freshChallenge, some allow, "preferred", rpID⟩
      ({ sess with currentChallenge := some opts.challenge }, .ok opts)

/-- The `/login/verify` SQL join: the first credential row with the given
identifier, paired with its owning user (no row when either is missing). -/
def joinCredentialUser (db : DB) (credentialID : List Char) :
    Option (Credential × User) :=
  match db.credentials.find? (fun c => c.credential_id == credentialID) with
  | none => none
  | some c =>
      match db.users.find? (fun u => u.id == c.user_id) with
      | none => none
      | some u => some (c, u)

/-- The `UPDATE credentials SET counter = $1 WHERE credential_id = $2`
write. -/
def updateCounter (db : DB) (credentialID : List Char) (newCounter : Nat) : DB :=
  { db with credentials := db.credentials.map (fun c =>
      if c.credential_id == credentialID then { c with counter := newCounter } else c) }

/-- `POST /login/verify` (`server.js` 292–360).  Requires the session's
outstanding challenge; looks the credential up by the base64url of the
submitted raw id; verifies the assertion against the stored public key and
counter; on success persists the new counter, clears the challenge and
sets the Authenticated Session fields. -/
def loginVerify (db : DB) (sess : SessionState) (resp : AuthenticationResponse) :
    DB × SessionState × VerifyResult :=
  match sess.currentChallenge with
  | none => (db, sess, .err 400 "No authentication in progress")
  | some expectedChallenge =>
      let credentialID := bufferToBase64url resp.rawId
      match joinCredentialUser db credentialID with
      | none => (db, sess, .err 404 "Credential not found")
      | some (credRec, u) =>
          match verifyAuthenticationResponse resp expectedChallenge origin rpID
              (base64urlToBuffer credRec.public_key) credRec.counter with
          | .error _ => (db, sess, .err 400 "Verification failed")
          | .ok info =>
              (updateCounter db credentialID info.newCounter,
               { sess with currentChallenge := none,
                           userId := some u.id, username := some u.username },
               .ok u.id u.username u.email)

/-! ## The two-query decomposition of `/login/verify`

The handler issues its SELECT and its UPDATE as separate queries on the
shared pool, with no transaction around them; the decomposition below
makes the read step and the verify-and-write step explicit, and
`loginVerify_eq_read_finish` shows a single uninterleaved call is their
composition. -/

/-- The SELECT step of `/login/verify` (`server.js` 304–310). -/
def loginVerifyRead (db : DB) (resp : AuthenticationResponse) :
    Option (Credential × User) :=
  joinCredentialUser db (bufferToBase64url resp.rawId)

/-- The verify-and-write step of `/login/verify` (`server.js` 319–355),
acting on whatever row the earlier SELECT returned. -/
def loginVerifyFinish (db : DB) (sess : SessionState)
    (resp : AuthenticationResponse) (expectedChallenge : String)
    (row : Credential × User) : DB × SessionState × VerifyResult :=
  match verifyAuthenticationResponse resp expectedChallenge origin rpID
      (base64urlToBuffer row.1.public_key) row.1.counter with
  | .error _ => (db, sess, .err 400 "Verification failed")
  | .ok info =>
      (updateCounter db (bufferToBase64url resp.rawId) info.newCounter,
       { sess with currentChallenge := none,
                   userId := some row.2.id, username := some row.2.username },
       .ok row.2.id row.2.username row.2.email)

theorem loginVerify_eq_read_finish (db : DB) (sess : SessionState)
    (resp : AuthenticationResponse) :
    loginVerify db sess resp =
      match sess.currentChallenge with
      | none => (db, sess, .err 400 "No authentication in progress")
      | some ch =>
          match loginVerifyRead db resp with
          | none => (db, sess, .err 404 "Credential not found")
          | some row => loginVerifyFinish db sess resp ch row := by
  unfold loginVerify loginVerifyRead loginVerifyFinish
  cases sess.currentChallenge with
  | none => rfl
  | some ch =>
      dsimp only
      cases joinCredentialUser db (bufferToBase64url resp.rawId) with
      | none => rfl
      | some row => rfl

/-! ## Helper lemmas about the library model -/

theorem verifyAuthn_ok_implies (resp : AuthenticationResponse)
    (ch o rp : String) (key : List Nat) (ctr : Nat) (info : AuthenticationInfo)
    (h : verifyAuthenticationResponse resp ch o rp key ctr = .ok info) :
    resp.challenge = ch ∧ ctr < resp.newCounter ∧ info.newCounter = resp.newCounter := by
  unfold verifyAuthenticationResponse at h
  repeat' split at h
  any_goals exact Except.noConfusion h
  rename_i hsig horig hrp hchal hflag hctr
  have hinfo : info = ⟨resp.newCounter⟩ := by
    injection h with h'
    exact h'.symm
  subst hinfo
  exact ⟨not_not.mp hchal, by omega, rfl⟩

/-! ## Concrete instances used by witnesses and counterexamples -/

/-- A registered user. -/
def exUser : User := ⟨1, "nikhil", "nikhil@coffelist.com"⟩

/-- Raw bytes of the example credential id. -/
def exCredIdBytes : List Nat := [1, 2, 3]

/-- Raw bytes of the example public key. -/
def exKeyBytes : List Nat := [9, 9]

/-- The user's stored credential, counter 5. -/
def exCred : Credential :=
  ⟨1, bufferToBase64url exCredIdBytes, bufferToBase64url exKeyBytes, 5, ["usb"]⟩

/-- A database with the one user and their credential. -/
def exDB : DB := ⟨[exUser], [exCred]⟩

/-- A session with an outstanding authentication challenge. -/
def exSess : SessionState := ⟨some "chal", none, none, none⟩

/-- A session with an outstanding registration challenge and pending user. -/
def exRegSess : SessionState :=
  ⟨some "chal", some ⟨"user_tmp", "maya", "maya@example.com"⟩, none, none⟩

/-- A well-signed assertion over the outstanding challenge, reporting
counter `c`. -/
def exAuthnResp (c : Nat) : AuthenticationResponse :=
  ⟨exCredIdBytes, "chal", origin, rpID, true, true, exKeyBytes, c⟩

/-- A valid attestation over the outstanding registration challenge. -/
def exRegResp : RegistrationResponse :=
  ⟨"chal", origin, rpID, true, true, [4, 5, 6], [7, 8], 0, ["usb"]⟩

/-! ## The claims -/

/-- **C3.** A verify call — registration or authentication — on a session
with no outstanding challenge fails with the state error (400, ceremony not
in progress) and leaves the database and the whole session record, in
particular the authenticated-session fields, unchanged. -/
theorem c3_verify_without_challenge_fails
    (db : DB) (sess : SessionState) (r : RegistrationResponse)
    (a : AuthenticationResponse) (h : sess.currentChallenge = none) :
    registerVerify db sess r = (db, sess, .err 400 "No registration in progress") ∧
    loginVerify db sess a = (db, sess, .err 400 "No authentication in progress") := by
  constructor
  · unfold registerVerify
    rw [h]
  · unfold loginVerify
    rw [h]

/-- Witness for C3 at a concrete challenge-free session. -/
theorem c3_verify_without_challenge_fails_witness :
    registerVerify exDB ⟨none, none, none, none⟩ exRegResp
      = (exDB, ⟨none, none, none, none⟩, .err 400 "No registration in progress") ∧
    loginVerify exDB ⟨none, none, none, none⟩ (exAuthnResp 6)
      = (exDB, ⟨none, none, none, none⟩, .err 400 "No authentication in progress") :=
  c3_verify_without_challenge_fails exDB ⟨none, none, none, none⟩ exRegResp
    (exAuthnResp 6) rfl

/-- **C1.** An authentication verify with an outstanding challenge and a
known credential whose assertion reports a counter less than or equal to
the stored counter fails with the verification error and changes nothing:
the database (in particular the stored counter) and the session are
returned unchanged. -/
theorem c1_stale_counter_rejected
    (db : DB) (sess : SessionState) (resp : AuthenticationResponse)
    (ch : String) (credRec : Credential) (u : User)
    (hch : sess.currentChallenge = some ch)
    (hrow : joinCredentialUser db (bufferToBase64url resp.rawId) = some (credRec, u))
    (hstale : resp.newCounter ≤ credRec.counter) :
    loginVerify db sess resp = (db, sess, .err 400 "Verification failed") := by
  unfold loginVerify
  rw [hch]
  dsimp only
  rw [hrow]
  dsimp only
  cases hv : verifyAuthenticationResponse resp ch origin rpID
      (base64urlToBuffer credRec.public_key) credRec.counter with
  | error f => rfl
  | ok info =>
      exfalso
      obtain ⟨-, hlt, -⟩ := verifyAuthn_ok_implies resp ch origin rpID
        (base64urlToBuffer credRec.public_key) credRec.counter info hv
      omega

/-- Witness for C1: replaying counter 5 against stored counter 5. -/
theorem c1_stale_counter_rejected_witness :
    loginVerify exDB exSess (exAuthnResp 5)
      = (exDB, exSess, .err 400 "Verification failed") :=
  c1_stale_counter_rejected exDB exSess (exAuthnResp 5) "chal" exCred exUser
    rfl (by decide) (by decide)

/-- **C5.** An authentication verify with an outstanding challenge, a known
credential, an assertion signed with the stored public key over the expected
challenge, origin and relying-party id, good flags, and a reported counter
strictly greater than the stored one: the call returns the owner's public
fields, every stored copy of the credential carries exactly the reported
counter afterwards, the challenge is cleared, and the session is
authenticated as the owner. -/
theorem c5_valid_assertion_succeeds
    (db : DB) (sess : SessionState) (resp : AuthenticationResponse)
    (ch : String) (credRec : Credential) (u : User)
    (hch : sess.currentChallenge = some ch)
    (hrow : joinCredentialUser db (bufferToBase64url resp.rawId) = some (credRec, u))
    (hsig : resp.sigValid = true)
    (hkey : resp.sigKey = base64urlToBuffer credRec.public_key)
    (horigin : resp.respOrigin = origin) (hrp : resp.respRpId = rpID)
    (hchal : resp.challenge = ch) (hflags : resp.flagsOk = true)
    (hctr : credRec.counter < resp.newCounter) :
    (loginVerify db sess resp).2.2 = .ok u.id u.username u.email ∧
    (∀ c ∈ (loginVerify db sess resp).1.credentials,
        c.credential_id = bufferToBase64url resp.rawId → c.counter = resp.newCounter) ∧
    (loginVerify db sess resp).2.1.currentChallenge = none ∧
    (loginVerify db sess resp).2.1.userId = some u.id ∧
    (loginVerify db sess resp).2.1.username = some u.username := by
  have hle : ¬ resp.newCounter ≤ credRec.counter := by omega
  have hv : verifyAuthenticationResponse resp ch origin rpID
      (base64urlToBuffer credRec.public_key) credRec.counter = .ok ⟨resp.newCounter⟩ := by
    simp [verifyAuthenticationResponse, hsig, hkey, horigin, hrp, hchal, hflags, hle]
  have hlv : loginVerify db sess resp =
      (updateCounter db (bufferToBase64url resp.rawId) resp.newCounter,
       { sess with currentChallenge := none,
                   userId := some u.id, username := some u.username },
       .ok u.id u.username u.email) := by
    unfold loginVerify
    rw [hch]
    dsimp only
    rw [hrow]
    dsimp only
    rw [hv]
  rw [hlv]
  refine ⟨rfl, ?_, rfl, rfl, rfl⟩
  intro c hc hcid
  simp only [updateCounter, List.mem_map] at hc
  obtain ⟨c0, hc0, rfl⟩ := hc
  by_cases hid : c0.credential_id = bufferToBase64url resp.rawId
  · simp [hid]
  · rw [if_neg (by simpa using hid)] at hcid ⊢
    exact absurd hcid hid

/-- Witness for C5: the assertion reporting counter 6 against stored
counter 5 succeeds and the stored counter becomes 6. -/
theorem c5_valid_assertion_succeeds_witness :
    (loginVerify exDB exSess (exAuthnResp 6)).2.2
        = .ok exUser.id exUser.username exUser.email ∧
    (∀ c ∈ (loginVerify exDB exSess (exAuthnResp 6)).1.credentials,
        c.credential_id = bufferToBase64url (exAuthnResp 6).rawId → c.counter = (exAuthnResp 6).newCounter) ∧
    (loginVerify exDB exSess (exAuthnResp 6)).2.1.currentChallenge = none ∧
    (loginVerify exDB exSess (exAuthnResp 6)).2.1.userId = some exUser.id ∧
    (loginVerify exDB exSess (exAuthnResp 6)).2.1.username = some exUser.username :=
  c5_valid_assertion_succeeds exDB exSess (exAuthnResp 6) "chal" exCred exUser
    rfl (by decide) rfl (by decide) rfl rfl rfl rfl (by decide)

/-- Every credential row references an existing user row. -/
def credsReferenceUsers (db : DB) : Prop :=
  ∀ c ∈ db.credentials, ∃ u ∈ db.users, u.id = c.user_id

/-- **C2.** A registration verify either leaves the database unchanged or
appends exactly one user row together with one credential row owned by it
(the single committed transaction); consequently, if every credential
referenced an existing user before the call, the same holds after it. -/
theorem c2_register_verify_atomic
    (db : DB) (sess : SessionState) (resp : RegistrationResponse)
    (hinv : credsReferenceUsers db) :
    ((registerVerify db sess resp).1 = db ∨
      ∃ u c, (registerVerify db sess resp).1.users = db.users ++ [u] ∧
        (registerVerify db sess resp).1.credentials = db.credentials ++ [c] ∧
        c.user_id = u.id) ∧
    credsReferenceUsers (registerVerify db sess resp).1 := by
  unfold registerVerify
  cases hcc : sess.currentChallenge with
  | none => exact ⟨Or.inl rfl, hinv⟩
  | some expectedChallenge =>
      cases hru : sess.registrationUser with
      | none => exact ⟨Or.inl rfl, hinv⟩
      | some userData =>
          dsimp only
          cases hv : verifyRegistrationResponse resp expectedChallenge origin rpID with
          | error f => exact ⟨Or.inl rfl, hinv⟩
          | ok info =>
              dsimp only
              split
              · exact ⟨Or.inl rfl, hinv⟩
              · refine ⟨Or.inr ⟨_, _, rfl, rfl, rfl⟩, ?_⟩
                intro c hc
                simp only [List.mem_append, List.mem_singleton] at hc
                rcases hc with hc | rfl
                · obtain ⟨u, hu, hid⟩ := hinv c hc
                  exact ⟨u, by simp [hu], hid⟩
                · exact ⟨⟨freshUserId db, userData.username, userData.email⟩, by simp, rfl⟩

/-- Witness for C2: a successful concrete registration appends the user and
its credential together and preserves the reference invariant. -/
theorem c2_register_verify_atomic_witness :
    ((registerVerify exDB exRegSess exRegResp).1 = exDB ∨
      ∃ u c, (registerVerify exDB exRegSess exRegResp).1.users = exDB.users ++ [u] ∧
        (registerVerify exDB exRegSess exRegResp).1.credentials = exDB.credentials ++ [c] ∧
        c.user_id = u.id) ∧
    credsReferenceUsers (registerVerify exDB exRegSess exRegResp).1 :=
  c2_register_verify_atomic exDB exRegSess exRegResp
    (by intro c hc; fin_cases hc; exact ⟨exUser, by simp [exDB, exUser], rfl⟩)

/-- An assertion whose signature is invalid. -/
def exAuthnRespBadSig : AuthenticationResponse :=
  ⟨exCredIdBytes, "chal", origin, rpID, true, false, exKeyBytes, 6⟩

/-- An assertion signed over the wrong challenge. -/
def exAuthnRespWrongChal : AuthenticationResponse :=
  ⟨exCredIdBytes, "other", origin, rpID, true, true, exKeyBytes, 6⟩

/-- An attestation whose signature is invalid. -/
def exRegRespBadSig : RegistrationResponse :=
  ⟨"chal", origin, rpID, true, false, [4, 5, 6], [7, 8], 0, ["usb"]⟩

/-- An attestation signed over the wrong challenge. -/
def exRegRespWrongChal : RegistrationResponse :=
  ⟨"other", origin, rpID, true, true, [4, 5, 6], [7, 8], 0, ["usb"]⟩

/-- A session with no fields set. -/
def emptySession : SessionState := ⟨none, none, none, none⟩

/-- A failing registration verify leaves the session untouched; a successful
one clears the Challenge Session fields. -/
theorem registerVerify_session_behaviour
    (db : DB) (sess : SessionState) (r : RegistrationResponse) :
    (((registerVerify db sess r).2.2).isOk = true →
        (registerVerify db sess r).2.1.currentChallenge = none ∧
        (registerVerify db sess r).2.1.registrationUser = none) ∧
    (((registerVerify db sess r).2.2).isOk = false →
        (registerVerify db sess r).2.1 = sess) := by
  unfold registerVerify
  cases hcc : sess.currentChallenge with
  | none => exact ⟨fun h => Bool.noConfusion h, fun _ => rfl⟩
  | some ch =>
      cases hru : sess.registrationUser with
      | none => exact ⟨fun h => Bool.noConfusion h, fun _ => rfl⟩
      | some ru =>
          dsimp only
          cases hv : verifyRegistrationResponse r ch origin rpID with
          | error f => exact ⟨fun h => Bool.noConfusion h, fun _ => rfl⟩
          | ok info =>
              dsimp only
              split
              · exact ⟨fun h => Bool.noConfusion h, fun _ => rfl⟩
              · exact ⟨fun _ => ⟨rfl, rfl⟩, fun h => Bool.noConfusion h⟩

/-- A failing authentication verify leaves the session untouched; a
successful one clears the challenge. -/
theorem loginVerify_session_behaviour
    (db : DB) (sess : SessionState) (a : AuthenticationResponse) :
    (((loginVerify db sess a).2.2).isOk = true →
        (loginVerify db sess a).2.1.currentChallenge = none) ∧
    (((loginVerify db sess a).2.2).isOk = false →
        (loginVerify db sess a).2.1 = sess) := by
  unfold loginVerify
  cases hcc : sess.currentChallenge with
  | none => exact ⟨fun h => Bool.noConfusion h, fun _ => rfl⟩
  | some ch =>
      dsimp only
      cases hj : joinCredentialUser db (bufferToBase64url a.rawId) with
      | none => exact ⟨fun h => Bool.noConfusion h, fun _ => rfl⟩
      | some row =>
          obtain ⟨credRec, u⟩ := row
          dsimp only
          cases hv : verifyAuthenticationResponse a ch origin rpID
              (base64urlToBuffer credRec.public_key) credRec.counter with
          | error f => exact ⟨fun h => Bool.noConfusion h, fun _ => rfl⟩
          | ok info => exact ⟨fun _ => rfl, fun h => Bool.noConfusion h⟩

/-- Counterexample to C4: `/login/verify` runs with an outstanding
challenge, verification fails (wrong challenge in the signed data), and the
Challenge Session field is NOT cleared — it still holds the challenge. -/
theorem c4_counterexample :
    exSess.currentChallenge = some "chal" ∧
    ((loginVerify exDB exSess exAuthnRespWrongChal).2.2).isOk = false ∧
    (loginVerify exDB exSess exAuthnRespWrongChal).2.1.currentChallenge = some "chal" := by
  decide

/-- **C4 (amended).** For a verify call that runs with an outstanding
challenge, the Challenge Session fields are cleared exactly when the call
succeeds; on any failure the session record is left unchanged (so the
challenge is still outstanding). -/
theorem c4_challenge_cleared_iff_success
    (db : DB) (sess : SessionState) (r : RegistrationResponse)
    (a : AuthenticationResponse) (ch : String)
    (_hch : sess.currentChallenge = some ch) :
    (((registerVerify db sess r).2.2).isOk = true →
        (registerVerify db sess r).2.1.currentChallenge = none ∧
        (registerVerify db sess r).2.1.registrationUser = none) ∧
    (((registerVerify db sess r).2.2).isOk = false →
        (registerVerify db sess r).2.1 = sess) ∧
    (((loginVerify db sess a).2.2).isOk = true →
        (loginVerify db sess a).2.1.currentChallenge = none) ∧
    (((loginVerify db sess a).2.2).isOk = false →
        (loginVerify db sess a).2.1 = sess) :=
  ⟨(registerVerify_session_behaviour db sess r).1,
   (registerVerify_session_behaviour db sess r).2,
   (loginVerify_session_behaviour db sess a).1,
   (loginVerify_session_behaviour db sess a).2⟩

/-- Witness for the amended C4 at a concrete session holding a challenge
and pending user. -/
theorem c4_challenge_cleared_iff_success_witness :
    (((registerVerify exDB exRegSess exRegResp).2.2).isOk = true →
        (registerVerify exDB exRegSess exRegResp).2.1.currentChallenge = none ∧
        (registerVerify exDB exRegSess exRegResp).2.1.registrationUser = none) ∧
    (((registerVerify exDB exRegSess exRegResp).2.2).isOk = false →
        (registerVerify exDB exRegSess exRegResp).2.1 = exRegSess) ∧
    (((loginVerify exDB exRegSess (exAuthnResp 6)).2.2).isOk = true →
        (loginVerify exDB exRegSess (exAuthnResp 6)).2.1.currentChallenge = none) ∧
    (((loginVerify exDB exRegSess (exAuthnResp 6)).2.2).isOk = false →
        (loginVerify exDB exRegSess (exAuthnResp 6)).2.1 = exRegSess) :=
  c4_challenge_cleared_iff_success exDB exRegSess exRegResp (exAuthnResp 6)
    "chal" rfl

/-- A database state after the seed migration `001_add_users.sql`: user
"james" exists and owns no credentials. -/
def c6DB : DB := ⟨[⟨1, "james", "james@bluebottle.com"⟩], []⟩

/-- Counterexample to C6: user "james" exists, yet `/login/start` with that
username fails with the 404 NotFound error, refuting "fails if and only if
no user with that username exists". -/
theorem c6_counterexample :
    (c6DB.users.any (fun u => u.username == "james")) = true ∧
    (loginStart c6DB emptySession (some "james") "c1").2 = .err 404 "User not found" := by
  decide

/-- **C6 (amended).** For a start call with a truthy username, the call
fails with the NotFound error iff the credentials⋈users join produces no
row for that username — which happens both when no such user exists and
when the user owns no credentials; when rows match, the returned options
list exactly those credentials' identifiers and transport hints. -/
theorem c6_login_start_allowlist
    (db : DB) (sess : SessionState) (uname ch : String) (hne : uname ≠ "") :
    ((loginStart db sess (some uname) ch).2 = .err 404 "User not found" ↔
      lookupCredentialsByUsername db uname = []) ∧
    (lookupCredentialsByUsername db uname ≠ [] →
      (loginStart db sess (some uname) ch).2 =
        .ok ⟨ch, some ((lookupCredentialsByUsername db uname).map (fun c =>
            AllowCredential.mk (base64urlToBuffer c.credential_id) "public-key"
              c.transports)),
          "preferred", rpID⟩) := by
  unfold loginStart
  dsimp only [Option.getD]
  rw [if_neg (by simp [hne])]
  by_cases hrows : lookupCredentialsByUsername db uname = []
  · rw [if_pos (by simp [hrows])]
    exact ⟨by simp [hrows], fun h => absurd hrows h⟩
  · rw [if_neg (by simpa using hrows)]
    refine ⟨⟨fun h => LoginStartResult.noConfusion h, fun h => absurd h hrows⟩, fun _ => rfl⟩

/-- Witness for the amended C6: looking "nikhil" up in `exDB` returns the
one stored credential in the allow-list. -/
theorem c6_login_start_allowlist_witness :
    ((loginStart exDB emptySession (some "nikhil") "c1").2 = .err 404 "User not found" ↔
      lookupCredentialsByUsername exDB "nikhil" = []) ∧
    (lookupCredentialsByUsername exDB "nikhil" ≠ [] →
      (loginStart exDB emptySession (some "nikhil") "c1").2 =
        .ok ⟨"c1", some ((lookupCredentialsByUsername exDB "nikhil").map (fun c =>
            AllowCredential.mk (base64urlToBuffer c.credential_id) "public-key"
              c.transports)),
          "preferred", rpID⟩) :=
  c6_login_start_allowlist exDB emptySession "nikhil" "c1" (by decide)

/-- On a successful start, the stored challenge is exactly the new one. -/
theorem loginStart_ok_session (db : DB) (sess : SessionState)
    (u : Option String) (ch : String) (opts : AuthenticationOptions)
    (h : (loginStart db sess u ch).2 = .ok opts) :
    (loginStart db sess u ch).1 = { sess with currentChallenge := some ch } := by
  unfold loginStart at h ⊢
  by_cases hu : (u.getD "" == "") = true
  · rw [if_pos hu]
  · rw [if_neg hu] at h ⊢
    dsimp only at h ⊢
    by_cases hrows : (lookupCredentialsByUsername db (u.getD "")).isEmpty = true
    · rw [if_pos hrows] at h
      cases h
    · rw [if_neg hrows]

/-- On a successful registration start, the stored challenge is exactly the
new one (and the pending identity is set). -/
theorem registerStart_ok_session (db : DB) (sess : SessionState)
    (u e : Option String) (ch tid : String) (opts : RegistrationOptions)
    (h : (registerStart db sess u e ch tid).2 = .ok opts) :
    (registerStart db sess u e ch tid).1
      = { sess with currentChallenge := some ch,
                    registrationUser := some ⟨tid, u.getD "", e.getD ""⟩ } := by
  unfold registerStart at h ⊢
  by_cases h1 : (u.getD "" == "" || e.getD "" == "") = true
  · rw [if_pos h1] at h
    cases h
  · rw [if_neg h1] at h ⊢
    dsimp only at h ⊢
    by_cases h2 : (db.users.any fun w =>
        w.username == u.getD "" || w.email == e.getD "") = true
    · rw [if_pos h2] at h
      cases h
    · rw [if_neg h2]

/-- A successful registration verification signed over `ch` implies the
response's challenge is `ch`. -/
theorem verifyReg_ok_implies (resp : RegistrationResponse)
    (ch o rp : String) (info : RegistrationInfo)
    (h : verifyRegistrationResponse resp ch o rp = .ok info) :
    resp.challenge = ch := by
  unfold verifyRegistrationResponse at h
  repeat' split at h
  any_goals exact Except.noConfusion h
  rename_i hsig horig hrp hchal hflag
  exact not_not.mp hchal

/-- **C7.** A second start before a verify — of either ceremony —
overwrites the stored challenge: afterwards the session holds the second
start's challenge, and a verify of a response signed over the first
challenge no longer succeeds. -/
theorem c7_second_start_overwrites
    (db : DB) (sess1 : SessionState) (ch1 ch2 : String)
    (u2 ru em : Option String) (tid : String)
    (opts : AuthenticationOptions) (ropts : RegistrationOptions)
    (a : AuthenticationResponse) (r : RegistrationResponse)
    (_h1 : sess1.currentChallenge = some ch1)
    (h2 : (loginStart db sess1 u2 ch2).2 = .ok opts)
    (h2r : (registerStart db sess1 ru em ch2 tid).2 = .ok ropts)
    (hne : ch1 ≠ ch2) (ha : a.challenge = ch1) (hr : r.challenge = ch1) :
    (loginStart db sess1 u2 ch2).1.currentChallenge = some ch2 ∧
    ((loginVerify db (loginStart db sess1 u2 ch2).1 a).2.2).isOk = false ∧
    (registerStart db sess1 ru em ch2 tid).1.currentChallenge = some ch2 ∧
    ((registerVerify db (registerStart db sess1 ru em ch2 tid).1 r).2.2).isOk
      = false := by
  have hs := loginStart_ok_session db sess1 u2 ch2 opts h2
  have hsr := registerStart_ok_session db sess1 ru em ch2 tid ropts h2r
  refine ⟨by rw [hs], ?_, by rw [hsr], ?_⟩
  · rw [hs]
    unfold loginVerify
    dsimp only
    cases hj : joinCredentialUser db (bufferToBase64url a.rawId) with
    | none => rfl
    | some row =>
        obtain ⟨credRec, u⟩ := row
        dsimp only
        cases hv : verifyAuthenticationResponse a ch2 origin rpID
            (base64urlToBuffer credRec.public_key) credRec.counter with
        | error f => rfl
        | ok info =>
            exfalso
            obtain ⟨hchal, -, -⟩ := verifyAuthn_ok_implies a ch2 origin rpID
              (base64urlToBuffer credRec.public_key) credRec.counter info hv
            exact hne (ha.symm.trans hchal)
  · rw [hsr]
    unfold registerVerify
    dsimp only
    cases hv : verifyRegistrationResponse r ch2 origin rpID with
    | error f => rfl
    | ok info =>
        exfalso
        exact hne (hr.symm.trans (verifyReg_ok_implies r ch2 origin rpID info hv))

/-- Witness for C7: over the outstanding "chal", a discoverable-flow
authentication start and a registration start for "maya", both with
challenge "chal2"; the responses signed over "chal" are rejected. -/
theorem c7_second_start_overwrites_witness :
    (loginStart exDB exSess none "chal2").1.currentChallenge = some "chal2" ∧
    ((loginVerify exDB (loginStart exDB exSess none "chal2").1 (exAuthnResp 6)).2.2).isOk
      = false ∧
    (registerStart exDB exSess (some "maya") (some "maya@example.com") "chal2"
        "user_tmp").1.currentChallenge = some "chal2" ∧
    ((registerVerify exDB
        (registerStart exDB exSess (some "maya") (some "maya@example.com") "chal2"
          "user_tmp").1 exRegResp).2.2).isOk = false :=
  c7_second_start_overwrites exDB exSess "chal" "chal2" none
    (some "maya") (some "maya@example.com") "user_tmp"
    ⟨"chal2", none, "preferred", rpID⟩
    ⟨"chal2", "Coffelist", rpID, "user_tmp", "maya"⟩
    (exAuthnResp 6) exRegResp rfl rfl (by decide) (by decide) rfl rfl

/-- A `/login/verify` call whose library verification fails returns the
constant verification-failure response and changes nothing. -/
theorem loginVerify_verification_error
    (db : DB) (sess : SessionState) (a : AuthenticationResponse)
    (ch : String) (row : Credential × User) (f : VerifyFailure)
    (hch : sess.currentChallenge = some ch)
    (hrow : joinCredentialUser db (bufferToBase64url a.rawId) = some row)
    (hv : verifyAuthenticationResponse a ch origin rpID
        (base64urlToBuffer row.1.public_key) row.1.counter = .error f) :
    loginVerify db sess a = (db, sess, .err 400 "Verification failed") := by
  obtain ⟨credRec, u⟩ := row
  unfold loginVerify
  rw [hch]
  dsimp only
  rw [hrow]
  dsimp only
  rw [hv]

/-- A `/register/verify` call whose library verification fails returns the
constant verification-failure response and changes nothing. -/
theorem registerVerify_verification_error
    (db : DB) (sess : SessionState) (r : RegistrationResponse)
    (ch : String) (ru : RegUser) (f : VerifyFailure)
    (hch : sess.currentChallenge = some ch)
    (hru : sess.registrationUser = some ru)
    (hv : verifyRegistrationResponse r ch origin rpID = .error f) :
    registerVerify db sess r = (db, sess, .err 400 "Verification failed") := by
  unfold registerVerify
  rw [hch, hru]
  dsimp only
  rw [hv]

/-- **C8.** Any two verify calls whose verification fails — with arbitrary,
possibly different, internal reasons `f1 f2 f3 f4` (bad signature, wrong
origin, challenge mismatch, flag failure, …) — return the identical error
result, across both verify endpoints: the response never reveals which
check failed. -/
theorem c8_verification_failure_uniform
    (db1 db2 db3 db4 : DB) (s1 s2 s3 s4 : SessionState)
    (a1 a2 : AuthenticationResponse) (r3 r4 : RegistrationResponse)
    (ch1 ch2 ch3 ch4 : String) (row1 row2 : Credential × User)
    (ru3 ru4 : RegUser) (f1 f2 f3 f4 : VerifyFailure)
    (hch1 : s1.currentChallenge = some ch1)
    (hrow1 : joinCredentialUser db1 (bufferToBase64url a1.rawId) = some row1)
    (hv1 : verifyAuthenticationResponse a1 ch1 origin rpID
        (base64urlToBuffer row1.1.public_key) row1.1.counter = .error f1)
    (hch2 : s2.currentChallenge = some ch2)
    (hrow2 : joinCredentialUser db2 (bufferToBase64url a2.rawId) = some row2)
    (hv2 : verifyAuthenticationResponse a2 ch2 origin rpID
        (base64urlToBuffer row2.1.public_key) row2.1.counter = .error f2)
    (hch3 : s3.currentChallenge = some ch3) (hru3 : s3.registrationUser = some ru3)
    (hv3 : verifyRegistrationResponse r3 ch3 origin rpID = .error f3)
    (hch4 : s4.currentChallenge = some ch4) (hru4 : s4.registrationUser = some ru4)
    (hv4 : verifyRegistrationResponse r4 ch4 origin rpID = .error f4) :
    (loginVerify db1 s1 a1).2.2 = (loginVerify db2 s2 a2).2.2 ∧
    (registerVerify db3 s3 r3).2.2 = (registerVerify db4 s4 r4).2.2 ∧
    (loginVerify db1 s1 a1).2.2 = (registerVerify db3 s3 r3).2.2 := by
  rw [loginVerify_verification_error db1 s1 a1 ch1 row1 f1 hch1 hrow1 hv1,
      loginVerify_verification_error db2 s2 a2 ch2 row2 f2 hch2 hrow2 hv2,
      registerVerify_verification_error db3 s3 r3 ch3 ru3 f3 hch3 hru3 hv3,
      registerVerify_verification_error db4 s4 r4 ch4 ru4 f4 hch4 hru4 hv4]
  exact ⟨rfl, rfl, rfl⟩

/-- Witness for C8: a bad-signature failure and a challenge-mismatch
failure (authentication), and likewise for registration, all yield the
same error result. -/
theorem c8_verification_failure_uniform_witness :
    (loginVerify exDB exSess exAuthnRespBadSig).2.2
      = (loginVerify exDB exSess exAuthnRespWrongChal).2.2 ∧
    (registerVerify exDB exRegSess exRegRespBadSig).2.2
      = (registerVerify exDB exRegSess exRegRespWrongChal).2.2 ∧
    (loginVerify exDB exSess exAuthnRespBadSig).2.2
      = (registerVerify exDB exRegSess exRegRespBadSig).2.2 :=
  c8_verification_failure_uniform exDB exDB exDB exDB exSess exSess exRegSess exRegSess
    exAuthnRespBadSig exAuthnRespWrongChal exRegRespBadSig exRegRespWrongChal
    "chal" "chal" "chal" "chal" (exCred, exUser) (exCred, exUser)
    ⟨"user_tmp", "maya", "maya@example.com"⟩ ⟨"user_tmp", "maya", "maya@example.com"⟩
    .badSignature .challengeMismatch .badSignature .challengeMismatch
    rfl (by decide) rfl rfl (by decide) rfl
    rfl rfl rfl rfl rfl rfl

/-- **C9.** The code evaluated at the racing interleaving.  `/login/verify`
issues its SELECT (`loginVerifyRead`) and its verify-plus-UPDATE
(`loginVerifyFinish`) as separate pool queries with no transaction or
compare-and-set, so two concurrent verifies of the same signed assertion
can both perform their SELECT before either UPDATE: both then see stored
counter 5, both accept the reported counter 6, and both succeed — whereas
running the two calls serially rejects the replay.  This refutes the
at-most-one-succeeds requirement. -/
theorem c9_race_both_replays_succeed :
    loginVerifyRead exDB (exAuthnResp 6) = some (exCred, exUser) ∧
    ((loginVerifyFinish exDB exSess (exAuthnResp 6) "chal" (exCred, exUser)).2.2).isOk
      = true ∧
    ((loginVerifyFinish
        (loginVerifyFinish exDB exSess (exAuthnResp 6) "chal" (exCred, exUser)).1
        exSess (exAuthnResp 6) "chal" (exCred, exUser)).2.2).isOk = true ∧
    ((loginVerify (loginVerify exDB exSess (exAuthnResp 6)).1
        exSess (exAuthnResp 6)).2.2).isOk = false := by
  decide

end Coffeelist
